import Mathlib

/-!
Verification of the pySensibo_Sky polling/diffing/notification engine.

This file shallowly embeds the core of `pySensibo_Sky/__init__.py`:

* `Notify.__call__` (the notification router's dispatch)  → `notifyCall`
* glob matching (`fnmatch.fnmatch` on POSIX, `*`/`?` only) → `globMatch`
* `Pod._poll`'s per-tick diff step                         → `tick`
* `Pod.room_dew_point`                                     → `room_dew_point`
* `Pod.room_heat_index`                                    → `room_heat_index`
* `Client.bind`'s registered pattern                       → `clientBindPattern`

Python runtime values carried by events are modelled by `PyVal` (floats as
exact rationals); `None` / absent JSON keys are modelled by `Option`.
The transcendental functions used by the dew-point formula (`math.exp`,
`math.log`) are passed in as parameters `expQ logQ : ℚ → ℚ`, so every
definition stays computable while the formula keeps the source's shape.
Callbacks are modelled abstractly by an identifier plus whether invoking
them raises, which is all the dispatch logic observes.
-/

set_option autoImplicit false

namespace Sensibo

/-- A Python runtime value as it appears in events and state snapshots. -/
inductive PyVal where
  | vNone : PyVal
  | vBool : Bool → PyVal
  | vInt : Int → PyVal
  | vNum : ℚ → PyVal
  | vStr : String → PyVal
deriving DecidableEq, Repr

/-- Numeric view of a Python value: `bool` is a subtype of `int` in Python,
so `True == 1 == 1.0`. -/
def PyVal.toNum : PyVal → Option ℚ
  | .vBool b => some (if b then 1 else 0)
  | .vInt n => some (n : ℚ)
  | .vNum q => some q
  | _ => none

/-- Python `==` on the values this library handles. -/
def pyEq (a b : PyVal) : Bool :=
  match a.toNum, b.toNum with
  | some x, some y => decide (x = y)
  | _, _ =>
    match a, b with
    | .vStr s, .vStr t => decide (s = t)
    | .vNone, .vNone => true
    | _, _ => false

/-- Python `bool(...)` truthiness on the values this library handles. -/
def pyTruthy : PyVal → Bool
  | .vNone => false
  | .vBool b => b
  | .vInt n => decide (n ≠ 0)
  | .vNum q => decide (q ≠ 0)
  | .vStr s => decide (s ≠ "")

/-- Python `!=` lifted to optional values (`none` models an absent key,
which the poll loop turns into the Python value `None`). -/
def optPyEq : Option PyVal → Option PyVal → Bool
  | some a, some b => pyEq a b
  | none, none => true
  | _, _ => false

/-- Celsius to Fahrenheit, `c2f` in the source. -/
def c2f (c : ℚ) : ℚ := c * 9 / 5 + 32

/-- Fahrenheit to Celsius, `f2c` in the source. -/
def f2c (f : ℚ) : ℚ := (f - 32) * 5 / 9

/-- The device-state snapshot fetched by `Pod.state`: each field is `none`
when the corresponding key is absent from the fetched `acState` dict. -/
structure AcState where
  mode : Option String
  swing : Option String
  targetTemperature : Option Int
  fanLevel : Option String
  «on» : Option PyVal
  temperatureUnit : Option String
deriving DecidableEq, Repr

/-- The measurement snapshot fetched by `Pod._measurements`. -/
structure Measurements where
  temperature : Option ℚ
  humidity : Option ℚ
  batteryVoltage : Option ℚ
deriving DecidableEq, Repr

/-- The cached unit-of-measure flags `Pod.__fnht` / `Pod.__clcs`. -/
structure UnitCache where
  fnht : Option Bool
  clcs : Option Bool
deriving DecidableEq, Repr

/-- Which emission site of `Pod._poll` produced an event (metadata for
stating theorems; the `name` field is built exactly as the source builds
the event-name string). -/
inductive EventKind where
  | mode | swing | temp | fanLevel | power | tempUnit
  | roomTemp | roomHumidity | roomDewPoint | roomHeatIndex | batteryVoltage
deriving DecidableEq, Repr

/-- The third argument the source passes to `Notify(...)`: either the `Pod`
itself (identified by name) or the current `Mode` (pod name, mode name). -/
inductive EvSrc where
  | pod : String → EvSrc
  | mode : String → String → EvSrc
deriving DecidableEq, Repr

/-- One `Notify(event, value, obj)` emission of the poll loop. -/
structure Event where
  kind : EventKind
  name : String
  value : PyVal
  src : EvSrc
deriving DecidableEq, Repr

/-- Python `str.lower()` for the ASCII strings this library handles
(spelled out over the character list so that it evaluates inside the
kernel). -/
def lowerStr (s : String) : String := ⟨s.toList.map Char.toLower⟩

/-- Python `c in s` for a single character. -/
def strContainsChar (s : String) (c : Char) : Bool := s.toList.contains c

/-- Python `s.startswith(pre)`. -/
def strStartsWith (s pre : String) : Bool := pre.toList.isPrefixOf s.toList

/-- `u.lower().startswith('f')` (ASCII unit strings). -/
def unitIsF (u : String) : Bool := strStartsWith (lowerStr u) "f"

/-- `u.lower().startswith('c')` (ASCII unit strings). -/
def unitIsC (u : String) : Bool := strStartsWith (lowerStr u) "c"

/-- The Magnus-form dew-point formula of `Pod.room_dew_point`, given the
resolved Fahrenheit flag `fnht` and the raw temperature/humidity readings.
`expQ`/`logQ` stand for `math.exp`/`math.log`. -/
def dewCore (expQ logQ : ℚ → ℚ) (fnht : Bool) (temp0 humidity : ℚ) : ℚ :=
  let temp := if fnht then f2c temp0 else temp0
  let var1 : ℚ := if temp > 0 then 17368 / 1000 else 17966 / 1000
  let var2 : ℚ := if temp > 0 then 23888 / 100 else 24715 / 100
  let pa := humidity / 100 * expQ (var1 * temp / (var2 + temp))
  let dewPoint := var2 * logQ pa / (var1 - logQ pa)
  if fnht then c2f dewPoint else dewPoint

/-- `Pod.room_dew_point`: looks up temperature and humidity (raising
`AttributeError`, modelled as `.error ()`, when absent), resolves the
Fahrenheit flag from the state's `temperatureUnit` (falling back to the
cached `__fnht`, raising when neither is available), updates the cache on
a successful unit read, and applies the Magnus formula. -/
def room_dew_point (expQ logQ : ℚ → ℚ) (st : AcState) (ms : Measurements)
    (cache : UnitCache) : Except Unit (ℚ × UnitCache) :=
  match ms.temperature with
  | none => .error ()
  | some temp =>
    match ms.humidity with
    | none => .error ()
    | some humidity =>
      match st.temperatureUnit with
      | some u =>
        let f := unitIsF u
        .ok (dewCore expQ logQ f temp humidity, ⟨some f, some (!f)⟩)
      | none =>
        match cache.fnht with
        | none => .error ()
        | some f => .ok (dewCore expQ logQ f temp humidity, cache)

/-- The simple averaged heat-index formula of `Pod.room_heat_index`:
`0.5 * (temp + 61.0 + (temp - 68.0) * 1.2 + humidity * 0.094)`. -/
def simpleHeatIndex (temp humidity : ℚ) : ℚ :=
  1 / 2 * (temp + 61 + (temp - 68) * (12 / 10) + humidity * (94 / 1000))

/-- The 9-term Rothfusz regression of `Pod.room_heat_index`
(the `math.fsum([...])` call, with the source's coefficients). -/
def rothfusz (temp humidity : ℚ) : ℚ :=
  -42379 / 1000
    + 204901523 / 100000000 * temp
    + 1014333127 / 100000000 * humidity
    - 22475541 / 100000000 * temp * humidity
    - 683783 / 100000000 * temp ^ 2
    - 5481717 / 100000000 * humidity ^ 2
    + 122874 / 100000000 * temp ^ 2 * humidity
    + 85282 / 100000000 * temp * humidity ^ 2
    - 199 / 100000000 * temp ^ 2 * humidity ^ 2

/-- The numeric part of `Pod.room_heat_index`, given the resolved Celsius
flag `clcs`: convert to Fahrenheit if Celsius, evaluate the simple formula,
replace it with the Rothfusz regression when it is at least 80, convert
back if Celsius. -/
def heatCore (clcs : Bool) (temp0 humidity : ℚ) : ℚ :=
  let temp := if clcs then c2f temp0 else temp0
  let hi := simpleHeatIndex temp humidity
  let hi2 := if hi ≥ 80 then rothfusz temp humidity else hi
  if clcs then f2c hi2 else hi2

/-- `Pod.room_heat_index`: same lookup/caching discipline as
`room_dew_point`, but resolving the Celsius flag `__clcs`. -/
def room_heat_index (st : AcState) (ms : Measurements) (cache : UnitCache) :
    Except Unit (ℚ × UnitCache) :=
  match ms.temperature with
  | none => .error ()
  | some temp =>
    match ms.humidity with
    | none => .error ()
    | some humidity =>
      match st.temperatureUnit with
      | some u =>
        let c := unitIsC u
        .ok (heatCore c temp humidity, ⟨some (!c), some c⟩)
      | none =>
        match cache.clcs with
        | none => .error ()
        | some c => .ok (heatCore c temp humidity, cache)

/-- The mutable per-pod state that one tick of `Pod._poll` reads and
writes: pod name, `self._mode.name`, the `old_state` / `old_measurements`
baselines, and the cached unit flags. -/
structure PodState where
  name : String
  modeName : String
  oldState : AcState
  oldMeas : Measurements
  cache : UnitCache
deriving DecidableEq, Repr

/-- The `mode` branch of the tick: when the fetched mode is present and
differs from the baseline, update `self._mode` and the baseline and fire a
`mode` event carrying the new mode name. Returns the (possibly updated)
current mode name, baseline mode, and emitted events. -/
def modeStep (name modeName : String) (old : Option String) :
    Option String → String × Option String × List Event
  | some m =>
    if some m ≠ old then
      (m, some m, [⟨.mode, name ++ ".mode", .vStr m, .pod name⟩])
    else (modeName, old, [])
  | none => (modeName, old, [])

/-- The `swing` branch of the tick (mode-scoped event, named with the
current mode name). -/
def swingStep (name modeName : String) (old : Option String) :
    Option String → Option String × List Event
  | some w =>
    if some w ≠ old then
      (some w,
        [⟨.swing, name ++ "." ++ modeName ++ ".swing", .vStr w,
          .mode name modeName⟩])
    else (old, [])
  | none => (old, [])

/-- The `targetTemperature` branch of the tick (fired as a `temp` event). -/
def targetTempStep (name modeName : String) (old : Option Int) :
    Option Int → Option Int × List Event
  | some t =>
    if some t ≠ old then
      (some t,
        [⟨.temp, name ++ "." ++ modeName ++ ".temp", .vInt t,
          .mode name modeName⟩])
    else (old, [])
  | none => (old, [])

/-- The `fanLevel` branch of the tick (fired as a `fan_level` event). -/
def fanLevelStep (name modeName : String) (old : Option String) :
    Option String → Option String × List Event
  | some f =>
    if some f ≠ old then
      (some f,
        [⟨.fanLevel, name ++ "." ++ modeName ++ ".fan_level", .vStr f,
          .mode name modeName⟩])
    else (old, [])
  | none => (old, [])

/-- The `on` branch of the tick: fires a `power` event carrying
`bool(power)`. -/
def powerStep (name : String) (old : Option PyVal) :
    Option PyVal → Option PyVal × List Event
  | some p =>
    if optPyEq (some p) old then (old, [])
    else
      (some p, [⟨.power, name ++ ".power", .vBool (pyTruthy p), .pod name⟩])
  | none => (old, [])

/-- The `temperatureUnit` branch of the tick (fired as a `temp_unit`
event). -/
def tempUnitStep (name modeName : String) (old : Option String) :
    Option String → Option String × List Event
  | some u =>
    if some u ≠ old then
      (some u,
        [⟨.tempUnit, name ++ "." ++ modeName ++ ".temp_unit", .vStr u,
          .mode name modeName⟩])
    else (old, [])
  | none => (old, [])

/-- Turn a possibly-absent numeric reading into the Python value the
source would pass to `Notify`. -/
def optNum : Option ℚ → PyVal
  | none => .vNone
  | some q => .vNum q

/-- The `hi_dp_event` closure of `Pod._poll`: fire `room_dew_point` and
then `room_heat_index`, swallowing an `AttributeError` from either (the
dew-point event has already fired when the heat-index computation
raises). Returns the emitted events and the updated unit cache. -/
def hiDpEvents (expQ logQ : ℚ → ℚ) (name : String) (st : AcState)
    (ms : Measurements) (cache : UnitCache) : List Event × UnitCache :=
  match room_dew_point expQ logQ st ms cache with
  | .error _ => ([], cache)
  | .ok (dp, cache1) =>
    match room_heat_index st ms cache1 with
    | .error _ =>
      ([⟨.roomDewPoint, name ++ ".room_dew_point", .vNum dp, .pod name⟩],
        cache1)
    | .ok (hi, cache2) =>
      ([⟨.roomDewPoint, name ++ ".room_dew_point", .vNum dp, .pod name⟩,
        ⟨.roomHeatIndex, name ++ ".room_heat_index", .vNum hi, .pod name⟩],
        cache2)

/-- The joint temperature/humidity branch of the tick. Note the source
compares with plain `!=` here, with no `is not None` guard: absent
readings participate in the diff and overwrite the baselines. Returns the
new temperature baseline, humidity baseline, events and cache. -/
def measStep (expQ logQ : ℚ → ℚ) (name : String) (st : AcState)
    (ms : Measurements) (oldT oldH : Option ℚ) (cache : UnitCache) :
    Option ℚ × Option ℚ × List Event × UnitCache :=
  let tEv : Event := ⟨.roomTemp, name ++ ".room_temp",
    optNum ms.temperature, .pod name⟩
  let hEv : Event := ⟨.roomHumidity, name ++ ".room_humidity",
    optNum ms.humidity, .pod name⟩
  if ms.humidity ≠ oldH ∧ ms.temperature ≠ oldT then
    let d := hiDpEvents expQ logQ name st ms cache
    (ms.temperature, ms.humidity, tEv :: hEv :: d.1, d.2)
  else if ms.temperature ≠ oldT then
    let d := hiDpEvents expQ logQ name st ms cache
    (ms.temperature, oldH, tEv :: d.1, d.2)
  else if ms.humidity ≠ oldH then
    let d := hiDpEvents expQ logQ name st ms cache
    (oldT, ms.humidity, hEv :: d.1, d.2)
  else (oldT, oldH, [], cache)

/-- The `batteryVoltage` branch of the tick — again a plain `!=` with no
`is not None` guard. -/
def batteryStep (name : String) (old : Option ℚ) :
    Option ℚ → Option ℚ × List Event
  | newv =>
    if newv ≠ old then
      (newv,
        [⟨.batteryVoltage, name ++ ".battery_voltage", optNum newv,
          .pod name⟩])
    else (old, [])

/-- One tick of `Pod._poll`'s diff-and-publish loop body, as a pure
function from the pre-tick pod state and the freshly fetched state and
measurements to the post-tick pod state and the list of events fired, in
emission order (mode, swing, temp, fan_level, power, temp_unit, the
temperature/humidity block, battery_voltage). -/
def tick (expQ logQ : ℚ → ℚ) (ps : PodState) (st : AcState)
    (ms : Measurements) : PodState × List Event :=
  let name := ps.name
  let m := modeStep name ps.modeName ps.oldState.mode st.mode
  let modeName := m.1
  let sw := swingStep name modeName ps.oldState.swing st.swing
  let tt := targetTempStep name modeName ps.oldState.targetTemperature
    st.targetTemperature
  let fl := fanLevelStep name modeName ps.oldState.fanLevel st.fanLevel
  let pw := powerStep name ps.oldState.«on» st.«on»
  let tu := tempUnitStep name modeName ps.oldState.temperatureUnit
    st.temperatureUnit
  let me := measStep expQ logQ name st ms ps.oldMeas.temperature
    ps.oldMeas.humidity ps.cache
  let bt := batteryStep name ps.oldMeas.batteryVoltage ms.batteryVoltage
  (⟨name, modeName,
    ⟨m.2.1, sw.1, tt.1, fl.1, pw.1, tu.1⟩,
    ⟨me.1, me.2.1, bt.1⟩,
    me.2.2.2⟩,
    m.2.2 ++ sw.2 ++ tt.2 ++ fl.2 ++ pw.2 ++ tu.2 ++ me.2.2.1 ++ bt.2)

/-- A registered callback, abstractly: a process-unique identifier and
whether invoking it raises. Dispatch observes nothing else about a
callback. -/
structure Callback where
  cid : Nat
  throws : Bool
deriving DecidableEq, Repr

/-- Run the callbacks registered under one matching pattern, in insertion
order (`process_callbacks` in `Notify.__call__`): the first raising
callback aborts the whole dispatch with its exception. On success,
returns the identifiers of the invoked callbacks in order. -/
def processCallbacks : List Callback → Except Nat (List Nat)
  | [] => .ok []
  | cb :: rest =>
    if cb.throws then .error cb.cid
    else
      match processCallbacks rest with
      | .error e => .error e
      | .ok ids => .ok (cb.cid :: ids)

/-- Fuelled worker for glob matching. Every recursive call shrinks
`ps.length + s.length`, so any fuel above that bound computes the match;
the fuel only makes the recursion structural (hence kernel-reducible). -/
def globMatchFuel : Nat → List Char → List Char → Bool
  | 0, _, _ => false
  | _ + 1, [], s => s.isEmpty
  | fuel + 1, '*' :: ps, [] => globMatchFuel fuel ps []
  | fuel + 1, '*' :: ps, c :: s =>
    globMatchFuel fuel ps (c :: s) || globMatchFuel fuel ('*' :: ps) s
  | _ + 1, '?' :: _, [] => false
  | fuel + 1, '?' :: ps, _ :: s => globMatchFuel fuel ps s
  | _ + 1, _ :: _, [] => false
  | fuel + 1, p :: ps, c :: s => p == c && globMatchFuel fuel ps s

/-- Glob matching as `fnmatch.fnmatch` performs it on POSIX for the
patterns this library builds (`*` matches any sequence, `?` any single
character; the character-class syntax is never used by this client).
First argument is the pattern, second the matched name. -/
def globMatch (ps s : List Char) : Bool :=
  globMatchFuel (ps.length + s.length + 1) ps s

/-- Whether `Notify.__call__` routes the pattern through `fnmatch`:
`'*' in evt or '?' in evt`. -/
def hasWildcard (pat : String) : Bool :=
  strContainsChar pat '*' || strContainsChar pat '?'

/-- The per-pattern match test of `Notify.__call__`: the wildcard branch
uses `fnmatch.fnmatch(event, evt)`; the fallback branch compares
`evt.lower() == event` — it lowercases the pattern only, not the event. -/
def patternMatches (pat event : String) : Bool :=
  (hasWildcard pat && globMatch pat.toList event.toList)
    || lowerStr pat == event

/-- `Notify.__call__`: walk the subscription table in insertion order,
running the callbacks of every matching pattern. There is no exception
handling in the source, so a raising callback aborts the dispatch with
its exception; on success, returns the invoked callback identifiers. -/
def notifyCall : List (String × List Callback) → String → Except Nat (List Nat)
  | [], _ => .ok []
  | (pat, cbs) :: rest, event =>
    if patternMatches pat event then
      match processCallbacks cbs with
      | .error e => .error e
      | .ok ids =>
        match notifyCall rest event with
        | .error e => .error e
        | .ok ids2 => .ok (ids ++ ids2)
    else notifyCall rest event

/-- `Client.bind`: validate the property name and register the pattern
`'*' + property_name` — `'*'` concatenated directly, with no dot
separator. -/
def clientBindPattern (propertyName : String) : Except Unit String :=
  if propertyName ∈ ["mode", "power", "room_temp", "room_humidity",
      "battery_voltage", "swing", "temp", "fan_level", "temp_unit", "*"] then
    .ok ("*" ++ propertyName)
  else .error ()

/-- Event kinds fired by the joint temperature/humidity block of the tick. -/
def isMeasKind : EventKind → Bool
  | .roomTemp | .roomHumidity | .roomDewPoint | .roomHeatIndex => true
  | _ => false

/-- Event kinds of the derived dew-point/heat-index events. -/
def isDerivedKind : EventKind → Bool
  | .roomDewPoint | .roomHeatIndex => true
  | _ => false

/-- A concrete pod state used to instantiate the general theorems. -/
def podFix : PodState :=
  ⟨"dev", "cool",
    ⟨some "cool", some "stopped", some 20, some "low", some (.vBool true),
      some "C"⟩,
    ⟨some 20, some 50, some 3⟩, ⟨none, none⟩⟩

/-- A fetched device state with every key absent. -/
def stNoneFix : AcState := ⟨none, none, none, none, none, none⟩

/-- A fetched measurement snapshot with every key absent. -/
def msNoneFix : Measurements := ⟨none, none, none⟩

/-- A pod state with a cached Fahrenheit flag but no other state. -/
def psCached : PodState :=
  ⟨"dev", "cool", stNoneFix, msNoneFix, ⟨some true, some false⟩⟩

theorem pyEq_refl (a : PyVal) : pyEq a a = true := by
  cases a <;> simp [pyEq, PyVal.toNum]

theorem modeStep_self (n mn : String) (o : Option String) :
    modeStep n mn o o = (mn, o, []) := by
  cases o <;> simp [modeStep]

theorem swingStep_self (n mn : String) (o : Option String) :
    swingStep n mn o o = (o, []) := by
  cases o <;> simp [swingStep]

theorem targetTempStep_self (n mn : String) (o : Option Int) :
    targetTempStep n mn o o = (o, []) := by
  cases o <;> simp [targetTempStep]

theorem fanLevelStep_self (n mn : String) (o : Option String) :
    fanLevelStep n mn o o = (o, []) := by
  cases o <;> simp [fanLevelStep]

theorem powerStep_self (n : String) (o : Option PyVal) :
    powerStep n o o = (o, []) := by
  cases o <;> simp [powerStep, optPyEq, pyEq_refl]

theorem tempUnitStep_self (n mn : String) (o : Option String) :
    tempUnitStep n mn o o = (o, []) := by
  cases o <;> simp [tempUnitStep]

theorem measStep_self (expQ logQ : ℚ → ℚ) (n : String) (st : AcState)
    (ms : Measurements) (c : UnitCache) :
    measStep expQ logQ n st ms ms.temperature ms.humidity c =
      (ms.temperature, ms.humidity, [], c) := by
  simp [measStep]

theorem batteryStep_self (n : String) (o : Option ℚ) :
    batteryStep n o o = (o, []) := by
  simp [batteryStep]

theorem modeStep_kinds {n mn : String} {o v : Option String} {e : Event}
    (he : e ∈ (modeStep n mn o v).2.2) : e.kind = .mode := by
  cases v with
  | none => simp [modeStep] at he
  | some m =>
    by_cases h : (some m : Option String) = o
    · simp [modeStep, h] at he
    · simp [modeStep, h] at he
      simp [he]

theorem swingStep_kinds {n mn : String} {o v : Option String} {e : Event}
    (he : e ∈ (swingStep n mn o v).2) : e.kind = .swing := by
  cases v with
  | none => simp [swingStep] at he
  | some m =>
    by_cases h : (some m : Option String) = o
    · simp [swingStep, h] at he
    · simp [swingStep, h] at he
      simp [he]

theorem targetTempStep_kinds {n mn : String} {o v : Option Int} {e : Event}
    (he : e ∈ (targetTempStep n mn o v).2) : e.kind = .temp := by
  cases v with
  | none => simp [targetTempStep] at he
  | some m =>
    by_cases h : (some m : Option Int) = o
    · simp [targetTempStep, h] at he
    · simp [targetTempStep, h] at he
      simp [he]

theorem fanLevelStep_kinds {n mn : String} {o v : Option String} {e : Event}
    (he : e ∈ (fanLevelStep n mn o v).2) : e.kind = .fanLevel := by
  cases v with
  | none => simp [fanLevelStep] at he
  | some m =>
    by_cases h : (some m : Option String) = o
    · simp [fanLevelStep, h] at he
    · simp [fanLevelStep, h] at he
      simp [he]

theorem powerStep_kinds {n : String} {o v : Option PyVal} {e : Event}
    (he : e ∈ (powerStep n o v).2) : e.kind = .power := by
  cases v with
  | none => simp [powerStep] at he
  | some p =>
    by_cases h : optPyEq (some p) o = true
    · simp [powerStep, h] at he
    · simp [powerStep, h] at he
      simp [he]

theorem tempUnitStep_kinds {n mn : String} {o v : Option String} {e : Event}
    (he : e ∈ (tempUnitStep n mn o v).2) : e.kind = .tempUnit := by
  cases v with
  | none => simp [tempUnitStep] at he
  | some m =>
    by_cases h : (some m : Option String) = o
    · simp [tempUnitStep, h] at he
    · simp [tempUnitStep, h] at he
      simp [he]

theorem batteryStep_kinds {n : String} {o v : Option ℚ} {e : Event}
    (he : e ∈ (batteryStep n o v).2) : e.kind = .batteryVoltage := by
  by_cases h : v = o
  · simp [batteryStep, h] at he
  · simp [batteryStep, h] at he
    simp [he]

theorem hiDpEvents_eq_err {expQ logQ : ℚ → ℚ} {st : AcState}
    {ms : Measurements} {c : UnitCache} {u : Unit} (n : String)
    (hd : room_dew_point expQ logQ st ms c = .error u) :
    hiDpEvents expQ logQ n st ms c = ([], c) := by
  unfold hiDpEvents
  rw [hd]

theorem hiDpEvents_eq_dew_only {expQ logQ : ℚ → ℚ} {st : AcState}
    {ms : Measurements} {c c1 : UnitCache} {dp : ℚ} {u : Unit} (n : String)
    (hd : room_dew_point expQ logQ st ms c = .ok (dp, c1))
    (hh : room_heat_index st ms c1 = .error u) :
    hiDpEvents expQ logQ n st ms c =
      ([⟨.roomDewPoint, n ++ ".room_dew_point", .vNum dp, .pod n⟩], c1) := by
  unfold hiDpEvents
  rw [hd]
  dsimp only
  rw [hh]

theorem hiDpEvents_eq_both {expQ logQ : ℚ → ℚ} {st : AcState}
    {ms : Measurements} {c c1 c2 : UnitCache} {dp hi : ℚ} (n : String)
    (hd : room_dew_point expQ logQ st ms c = .ok (dp, c1))
    (hh : room_heat_index st ms c1 = .ok (hi, c2)) :
    hiDpEvents expQ logQ n st ms c =
      ([⟨.roomDewPoint, n ++ ".room_dew_point", .vNum dp, .pod n⟩,
        ⟨.roomHeatIndex, n ++ ".room_heat_index", .vNum hi, .pod n⟩],
        c2) := by
  unfold hiDpEvents
  rw [hd]
  dsimp only
  rw [hh]

theorem hiDpEvents_kinds {expQ logQ : ℚ → ℚ} {n : String} {st : AcState}
    {ms : Measurements} {c : UnitCache} {e : Event}
    (he : e ∈ (hiDpEvents expQ logQ n st ms c).1) :
    isDerivedKind e.kind = true := by
  rcases hd : room_dew_point expQ logQ st ms c with u | ⟨dp, c1⟩
  · rw [hiDpEvents_eq_err n hd] at he
    simp at he
  · rcases hh : room_heat_index st ms c1 with u | ⟨hi, c2⟩
    · rw [hiDpEvents_eq_dew_only n hd hh] at he
      simp at he
      simp [he, isDerivedKind]
    · rw [hiDpEvents_eq_both n hd hh] at he
      simp at he
      rcases he with he | he <;> simp [he, isDerivedKind]

theorem derivedKind_measKind {k : EventKind} (h : isDerivedKind k = true) :
    isMeasKind k = true := by
  cases k <;> simp_all [isDerivedKind, isMeasKind]

theorem measStep_kinds {expQ logQ : ℚ → ℚ} {n : String} {st : AcState}
    {ms : Measurements} {oldT oldH : Option ℚ} {c : UnitCache} {e : Event}
    (he : e ∈ (measStep expQ logQ n st ms oldT oldH c).2.2.1) :
    isMeasKind e.kind = true := by
  unfold measStep at he
  have hder : ∀ x ∈ (hiDpEvents expQ logQ n st ms c).1,
      isMeasKind x.kind = true :=
    fun x hx => derivedKind_measKind (hiDpEvents_kinds hx)
  split at he
  · simp at he
    rcases he with he | he | he
    · simp [he, isMeasKind]
    · simp [he, isMeasKind]
    · exact hder e he
  · split at he
    · simp at he
      rcases he with he | he
      · simp [he, isMeasKind]
      · exact hder e he
    · split at he
      · simp at he
        rcases he with he | he
        · simp [he, isMeasKind]
        · exact hder e he
      · simp at he

theorem filterKindNil (p : EventKind → Bool) (l : List Event)
    (h : ∀ e ∈ l, p e.kind = false) :
    l.filter (fun e => p e.kind) = [] := by
  induction l with
  | nil => rfl
  | cons x xs ih =>
    have hx := h x (by simp)
    have ih2 := ih fun e he => h e (by simp [he])
    simp [List.filter, hx, ih2]

theorem filterKindAll (p : EventKind → Bool) (l : List Event)
    (h : ∀ e ∈ l, p e.kind = true) :
    l.filter (fun e => p e.kind) = l := by
  induction l with
  | nil => rfl
  | cons x xs ih =>
    have hx := h x (by simp)
    have ih2 := ih fun e he => h e (by simp [he])
    simp [List.filter, hx, ih2]

theorem modeStep_filter (p : EventKind → Bool) (hp : p .mode = false)
    (n mn : String) (o v : Option String) :
    (modeStep n mn o v).2.2.filter (fun e => p e.kind) = [] :=
  filterKindNil p _ fun e he => by rw [modeStep_kinds he]; exact hp

theorem swingStep_filter (p : EventKind → Bool) (hp : p .swing = false)
    (n mn : String) (o v : Option String) :
    (swingStep n mn o v).2.filter (fun e => p e.kind) = [] :=
  filterKindNil p _ fun e he => by rw [swingStep_kinds he]; exact hp

theorem targetTempStep_filter (p : EventKind → Bool) (hp : p .temp = false)
    (n mn : String) (o v : Option Int) :
    (targetTempStep n mn o v).2.filter (fun e => p e.kind) = [] :=
  filterKindNil p _ fun e he => by rw [targetTempStep_kinds he]; exact hp

theorem fanLevelStep_filter (p : EventKind → Bool) (hp : p .fanLevel = false)
    (n mn : String) (o v : Option String) :
    (fanLevelStep n mn o v).2.filter (fun e => p e.kind) = [] :=
  filterKindNil p _ fun e he => by rw [fanLevelStep_kinds he]; exact hp

theorem powerStep_filter (p : EventKind → Bool) (hp : p .power = false)
    (n : String) (o v : Option PyVal) :
    (powerStep n o v).2.filter (fun e => p e.kind) = [] :=
  filterKindNil p _ fun e he => by rw [powerStep_kinds he]; exact hp

theorem tempUnitStep_filter (p : EventKind → Bool) (hp : p .tempUnit = false)
    (n mn : String) (o v : Option String) :
    (tempUnitStep n mn o v).2.filter (fun e => p e.kind) = [] :=
  filterKindNil p _ fun e he => by rw [tempUnitStep_kinds he]; exact hp

theorem batteryStep_filter (p : EventKind → Bool)
    (hp : p .batteryVoltage = false) (n : String) (o v : Option ℚ) :
    (batteryStep n o v).2.filter (fun e => p e.kind) = [] :=
  filterKindNil p _ fun e he => by rw [batteryStep_kinds he]; exact hp

theorem measStep_filter (p : EventKind → Bool)
    (hp : ∀ k, isMeasKind k = true → p k = false) (expQ logQ : ℚ → ℚ)
    (n : String) (st : AcState) (ms : Measurements) (oldT oldH : Option ℚ)
    (c : UnitCache) :
    (measStep expQ logQ n st ms oldT oldH c).2.2.1.filter
      (fun e => p e.kind) = [] :=
  filterKindNil p _ fun _ he => hp _ (measStep_kinds he)

theorem processCallbacks_ok (cbs : List Callback)
    (h : ∀ cb ∈ cbs, cb.throws = false) :
    processCallbacks cbs = .ok (cbs.map Callback.cid) := by
  induction cbs with
  | nil => rfl
  | cons cb rest ih =>
    have h1 := h cb (by simp)
    have ih2 := ih fun x hx => h x (by simp [hx])
    simp [processCallbacks, h1, ih2]

theorem processCallbacks_error (cbs1 : List Callback) (c : Callback)
    (cbs2 : List Callback) (h1 : ∀ cb ∈ cbs1, cb.throws = false)
    (hc : c.throws = true) :
    processCallbacks (cbs1 ++ c :: cbs2) = .error c.cid := by
  induction cbs1 with
  | nil => simp [processCallbacks, hc]
  | cons cb rest ih =>
    have hcb := h1 cb (by simp)
    have ih2 := ih fun x hx => h1 x (by simp [hx])
    simp [processCallbacks, hcb, ih2]

/-- Claim C2 (counterexample): `Notify.__call__` has no exception
handling — with two callbacks registered under a matching pattern, the
first raising, the dispatch re-raises the exception and delivers to
neither remaining callback (the result is the exception, not a delivery
list), contradicting the claim that a callback exception is caught. -/
theorem c2_counterexample :
    notifyCall [("evt", [⟨1, true⟩, ⟨2, false⟩])] "evt" = .error 1 := rfl

/-- Claim C2 (corrected): an exception raised by a matching callback
propagates out of the dispatch and aborts delivery to every remaining
callback — for any subscription table whose first pattern matches the
event and holds a raising callback after only non-raising ones, the whole
dispatch evaluates to that exception. -/
theorem c2_amended (pat event : String) (cbs1 cbs2 : List Callback)
    (c : Callback) (rest : List (String × List Callback))
    (hm : patternMatches pat event = true)
    (h1 : ∀ cb ∈ cbs1, cb.throws = false) (hc : c.throws = true) :
    notifyCall ((pat, cbs1 ++ c :: cbs2) :: rest) event = .error c.cid := by
  simp [notifyCall, hm, processCallbacks_error cbs1 c cbs2 h1 hc]

theorem c2_witness :
    notifyCall [("a", [⟨5, false⟩, ⟨6, true⟩, ⟨7, false⟩])] "a" =
      .error 6 :=
  c2_amended "a" "a" [⟨5, false⟩] [⟨7, false⟩] ⟨6, true⟩ [] (by decide)
    (by intro cb hcb; simp at hcb; simp [hcb]) rfl

/-- Claim C3 (counterexample): the non-wildcard branch of
`Notify.__call__` compares `evt.lower() == event`, lowercasing only the
pattern — pattern `"temp"` and event `"Temp"` are equal under
case-insensitive comparison, yet the callback is not invoked. -/
theorem c3_counterexample :
    notifyCall [("temp", [⟨1, false⟩])] "Temp" = .ok [] ∧
    lowerStr "temp" = lowerStr "Temp" := ⟨rfl, by decide⟩

/-- Claim C3 (corrected): for a registered pattern containing no `*` or
`?`, the router invokes the pattern's callbacks if and only if the
lowercased pattern equals the event name verbatim (so only letter-case
differences in the pattern are forgiven, not in the event name). -/
theorem c3_amended (p event : String) (cbs : List Callback)
    (hw : hasWildcard p = false) (hnt : ∀ cb ∈ cbs, cb.throws = false) :
    notifyCall [(p, cbs)] event =
      .ok (if lowerStr p == event then cbs.map Callback.cid else []) := by
  have hpm : patternMatches p event = (lowerStr p == event) := by
    simp [patternMatches, hw]
  by_cases hcase : (lowerStr p == event) = true
  · simp [notifyCall, hpm, hcase, processCallbacks_ok cbs hnt]
  · simp [notifyCall, hpm, hcase]

theorem c3_witness :
    notifyCall [("Temp", [⟨3, false⟩])] "temp" = .ok [3] :=
  (c3_amended "Temp" "temp" [⟨3, false⟩] (by decide)
    (by intro cb hcb; simp at hcb; simp [hcb])).trans (by rfl)

/-- Claim C10 (confirmed): `Client.bind` registers the pattern
`'*' + property_name` with no dot separator, so a client-level
subscription to `temp` also receives `device1.room_temp` events (a
different property whose event name merely ends in `temp`) in addition
to mode-scoped `device1.cool.temp` events. -/
theorem c10_client_bind_glob :
    clientBindPattern "temp" = .ok "*temp" ∧
    notifyCall [("*temp", [⟨7, false⟩])] "device1.room_temp" = .ok [7] ∧
    notifyCall [("*temp", [⟨7, false⟩])] "device1.cool.temp" = .ok [7] :=
  ⟨rfl, rfl, rfl⟩

/-- Claim C5 (confirmed): diffing two identical consecutive snapshots —
the fetched device state equals the baseline `old_state` and the fetched
measurements equal the baseline `old_measurements` — emits zero events. -/
theorem c5_idempotent (expQ logQ : ℚ → ℚ) (ps : PodState) :
    (tick expQ logQ ps ps.oldState ps.oldMeas).2 = [] := by
  simp [tick, modeStep_self, swingStep_self, targetTempStep_self,
    fanLevelStep_self, powerStep_self, tempUnitStep_self, measStep_self,
    batteryStep_self]

/-- Claim C6 (confirmed): when the previous and current snapshots agree on
every field except `on` (both values known and Python-unequal) and the
measurements are unchanged, the tick emits exactly one event: a `power`
event carrying the new value coerced through `bool(...)`. -/
theorem c6_power_only (expQ logQ : ℚ → ℚ) (ps : PodState) (st : AcState)
    (p a : PyVal)
    (hmode : st.mode = ps.oldState.mode)
    (hswing : st.swing = ps.oldState.swing)
    (htt : st.targetTemperature = ps.oldState.targetTemperature)
    (hfan : st.fanLevel = ps.oldState.fanLevel)
    (hunit : st.temperatureUnit = ps.oldState.temperatureUnit)
    (holdon : ps.oldState.«on» = some a) (hnewon : st.«on» = some p)
    (hne : pyEq p a = false) :
    (tick expQ logQ ps st ps.oldMeas).2 =
      [⟨.power, ps.name ++ ".power", .vBool (pyTruthy p), .pod ps.name⟩] := by
  simp [tick, hmode, hswing, htt, hfan, hunit, hnewon, holdon,
    modeStep_self, swingStep_self, targetTempStep_self, fanLevelStep_self,
    tempUnitStep_self, measStep_self, batteryStep_self, powerStep,
    optPyEq, hne]

theorem c6_witness :
    (tick (fun q => q) (fun q => q)
        ⟨"dev", "cool",
          ⟨some "cool", some "stopped", some 20, some "low",
            some (.vBool false), some "C"⟩,
          ⟨some 20, some 50, some 3⟩, ⟨none, none⟩⟩
        ⟨some "cool", some "stopped", some 20, some "low",
          some (.vInt 2), some "C"⟩
        ⟨some 20, some 50, some 3⟩).2 =
      [⟨.power, "dev" ++ ".power", .vBool (pyTruthy (.vInt 2)),
        .pod "dev"⟩] :=
  c6_power_only (fun q => q) (fun q => q)
    ⟨"dev", "cool",
      ⟨some "cool", some "stopped", some 20, some "low",
        some (.vBool false), some "C"⟩,
      ⟨some 20, some 50, some 3⟩, ⟨none, none⟩⟩
    ⟨some "cool", some "stopped", some 20, some "low",
      some (.vInt 2), some "C"⟩
    (.vInt 2) (.vBool false) rfl rfl rfl rfl rfl rfl rfl (by decide)

/-- Claim C4 (confirmed): when `mode` changes from A to B and `swing`
also changes in the same tick (both new values known), the first two
events of the diff pass are a `mode` event carrying B followed by a
`swing` event whose name is scoped under B — not under A — because the
mode branch replaces `self._mode` before the swing branch formats its
event name. -/
theorem c4_mode_scoped_swing (expQ logQ : ℚ → ℚ) (ps : PodState)
    (st : AcState) (ms : Measurements) (a b w : String)
    (holdm : ps.oldState.mode = some a) (hnewm : st.mode = some b)
    (hab : a ≠ b) (hneww : st.swing = some w)
    (holdw : ps.oldState.swing ≠ some w) :
    ((tick expQ logQ ps st ms).2).take 2 =
      [⟨.mode, ps.name ++ ".mode", .vStr b, .pod ps.name⟩,
        ⟨.swing, ps.name ++ "." ++ b ++ ".swing", .vStr w,
          .mode ps.name b⟩] := by
  have hba : b ≠ a := Ne.symm hab
  have hws : (some w : Option String) ≠ ps.oldState.swing := Ne.symm holdw
  simp [tick, modeStep, swingStep, holdm, hnewm, hneww, hba, hws]

theorem c4_witness :
    ((tick (fun q => q) (fun q => q)
        ⟨"dev", "cool",
          ⟨some "cool", some "stopped", some 20, some "low",
            some (.vBool true), some "C"⟩,
          ⟨some 20, some 50, some 3⟩, ⟨none, none⟩⟩
        ⟨some "heat", some "rangeFull", some 20, some "low",
          some (.vBool true), some "C"⟩
        ⟨some 20, some 50, some 3⟩).2).take 2 =
      [⟨.mode, "dev" ++ ".mode", .vStr "heat", .pod "dev"⟩,
        ⟨.swing, "dev" ++ "." ++ "heat" ++ ".swing", .vStr "rangeFull",
          .mode "dev" "heat"⟩] :=
  c4_mode_scoped_swing (fun q => q) (fun q => q)
    ⟨"dev", "cool",
      ⟨some "cool", some "stopped", some 20, some "low",
        some (.vBool true), some "C"⟩,
      ⟨some 20, some 50, some 3⟩, ⟨none, none⟩⟩
    ⟨some "heat", some "rangeFull", some 20, some "low",
      some (.vBool true), some "C"⟩
    ⟨some 20, some 50, some 3⟩ "cool" "heat" "rangeFull"
    rfl rfl (by decide) rfl (by decide)

theorem isMeasKind_beq_false {k k0 : EventKind} (h : isMeasKind k = true)
    (h0 : isMeasKind k0 = false) : (k == k0) = false := by
  cases hk : k == k0
  · rfl
  · have hkk : k = k0 := by simpa using hk
    rw [hkk, h0] at h
    cases h

/-- Claim C1 (counterexample): an absent measurement is treated as a
change. Starting from a baseline with temperature 20, a tick whose
fetched measurements lack `temperature` (device state and the other
measurements unchanged) fires a `room_temp` event carrying `None` and
overwrites the temperature baseline with `None` — the fetched-state
comparison `temperature != old_measurements['temperature']` has no
`is not None` guard. -/
theorem c1_counterexample :
    (tick (fun q => q) (fun q => q) podFix
        ⟨some "cool", some "stopped", some 20, some "low",
          some (.vBool true), some "C"⟩
        ⟨none, some 50, some 3⟩).2 =
      [⟨.roomTemp, "dev.room_temp", .vNone, .pod "dev"⟩] ∧
    (tick (fun q => q) (fun q => q) podFix
        ⟨some "cool", some "stopped", some 20, some "low",
          some (.vBool true), some "C"⟩
        ⟨none, some 50, some 3⟩).1.oldMeas.temperature = none ∧
    podFix.oldMeas.temperature = some 20 := ⟨rfl, rfl, rfl⟩

/-- Claim C1 (corrected): the unknown-value guarantee holds for the six
device-state fields — when the fetched state lacks a field, the tick
neither fires that field's event nor overwrites its baseline — but not
for the measurement fields, whose comparisons have no `is not None`
guard (see the counterexample). -/
theorem c1_amended (expQ logQ : ℚ → ℚ) (ps : PodState) (st : AcState)
    (ms : Measurements) :
    (st.mode = none →
      (tick expQ logQ ps st ms).1.oldState.mode = ps.oldState.mode ∧
      (tick expQ logQ ps st ms).2.filter
        (fun e => e.kind == EventKind.mode) = []) ∧
    (st.swing = none →
      (tick expQ logQ ps st ms).1.oldState.swing = ps.oldState.swing ∧
      (tick expQ logQ ps st ms).2.filter
        (fun e => e.kind == EventKind.swing) = []) ∧
    (st.targetTemperature = none →
      (tick expQ logQ ps st ms).1.oldState.targetTemperature =
        ps.oldState.targetTemperature ∧
      (tick expQ logQ ps st ms).2.filter
        (fun e => e.kind == EventKind.temp) = []) ∧
    (st.fanLevel = none →
      (tick expQ logQ ps st ms).1.oldState.fanLevel =
        ps.oldState.fanLevel ∧
      (tick expQ logQ ps st ms).2.filter
        (fun e => e.kind == EventKind.fanLevel) = []) ∧
    (st.«on» = none →
      (tick expQ logQ ps st ms).1.oldState.«on» = ps.oldState.«on» ∧
      (tick expQ logQ ps st ms).2.filter
        (fun e => e.kind == EventKind.power) = []) ∧
    (st.temperatureUnit = none →
      (tick expQ logQ ps st ms).1.oldState.temperatureUnit =
        ps.oldState.temperatureUnit ∧
      (tick expQ logQ ps st ms).2.filter
        (fun e => e.kind == EventKind.tempUnit) = []) := by
  refine ⟨?_, ?_, ?_, ?_, ?_, ?_⟩
  · intro h0
    refine ⟨by simp [tick, h0, modeStep], ?_⟩
    simp [tick, h0, modeStep, List.filter_append,
      swingStep_filter (fun k => k == EventKind.mode) rfl,
      targetTempStep_filter (fun k => k == EventKind.mode) rfl,
      fanLevelStep_filter (fun k => k == EventKind.mode) rfl,
      powerStep_filter (fun k => k == EventKind.mode) rfl,
      tempUnitStep_filter (fun k => k == EventKind.mode) rfl,
      measStep_filter (fun k => k == EventKind.mode)
        (fun k hk => isMeasKind_beq_false hk rfl),
      batteryStep_filter (fun k => k == EventKind.mode) rfl]
  · intro h0
    refine ⟨by simp [tick, h0, swingStep], ?_⟩
    simp [tick, h0, swingStep, List.filter_append,
      modeStep_filter (fun k => k == EventKind.swing) rfl,
      targetTempStep_filter (fun k => k == EventKind.swing) rfl,
      fanLevelStep_filter (fun k => k == EventKind.swing) rfl,
      powerStep_filter (fun k => k == EventKind.swing) rfl,
      tempUnitStep_filter (fun k => k == EventKind.swing) rfl,
      measStep_filter (fun k => k == EventKind.swing)
        (fun k hk => isMeasKind_beq_false hk rfl),
      batteryStep_filter (fun k => k == EventKind.swing) rfl]
  · intro h0
    refine ⟨by simp [tick, h0, targetTempStep], ?_⟩
    simp [tick, h0, targetTempStep, List.filter_append,
      modeStep_filter (fun k => k == EventKind.temp) rfl,
      swingStep_filter (fun k => k == EventKind.temp) rfl,
      fanLevelStep_filter (fun k => k == EventKind.temp) rfl,
      powerStep_filter (fun k => k == EventKind.temp) rfl,
      tempUnitStep_filter (fun k => k == EventKind.temp) rfl,
      measStep_filter (fun k => k == EventKind.temp)
        (fun k hk => isMeasKind_beq_false hk rfl),
      batteryStep_filter (fun k => k == EventKind.temp) rfl]
  · intro h0
    refine ⟨by simp [tick, h0, fanLevelStep], ?_⟩
    simp [tick, h0, fanLevelStep, List.filter_append,
      modeStep_filter (fun k => k == EventKind.fanLevel) rfl,
      swingStep_filter (fun k => k == EventKind.fanLevel) rfl,
      targetTempStep_filter (fun k => k == EventKind.fanLevel) rfl,
      powerStep_filter (fun k => k == EventKind.fanLevel) rfl,
      tempUnitStep_filter (fun k => k == EventKind.fanLevel) rfl,
      measStep_filter (fun k => k == EventKind.fanLevel)
        (fun k hk => isMeasKind_beq_false hk rfl),
      batteryStep_filter (fun k => k == EventKind.fanLevel) rfl]
  · intro h0
    refine ⟨by simp [tick, h0, powerStep], ?_⟩
    simp [tick, h0, powerStep, List.filter_append,
      modeStep_filter (fun k => k == EventKind.power) rfl,
      swingStep_filter (fun k => k == EventKind.power) rfl,
      targetTempStep_filter (fun k => k == EventKind.power) rfl,
      fanLevelStep_filter (fun k => k == EventKind.power) rfl,
      tempUnitStep_filter (fun k => k == EventKind.power) rfl,
      measStep_filter (fun k => k == EventKind.power)
        (fun k hk => isMeasKind_beq_false hk rfl),
      batteryStep_filter (fun k => k == EventKind.power) rfl]
  · intro h0
    refine ⟨by simp [tick, h0, tempUnitStep], ?_⟩
    simp [tick, h0, tempUnitStep, List.filter_append,
      modeStep_filter (fun k => k == EventKind.tempUnit) rfl,
      swingStep_filter (fun k => k == EventKind.tempUnit) rfl,
      targetTempStep_filter (fun k => k == EventKind.tempUnit) rfl,
      fanLevelStep_filter (fun k => k == EventKind.tempUnit) rfl,
      powerStep_filter (fun k => k == EventKind.tempUnit) rfl,
      measStep_filter (fun k => k == EventKind.tempUnit)
        (fun k hk => isMeasKind_beq_false hk rfl),
      batteryStep_filter (fun k => k == EventKind.tempUnit) rfl]

theorem c1_witness :
    (tick (fun q => q) (fun q => q) podFix stNoneFix
          msNoneFix).1.oldState.mode = podFix.oldState.mode ∧
    (tick (fun q => q) (fun q => q) podFix stNoneFix msNoneFix).2.filter
        (fun e => e.kind == EventKind.mode) = [] :=
  (c1_amended (fun q => q) (fun q => q) podFix stNoneFix msNoneFix).1 rfl

theorem measStep_filter_derived (expQ logQ : ℚ → ℚ) (n : String)
    (st : AcState) (ms : Measurements) (oldT oldH : Option ℚ)
    (c : UnitCache)
    (hn : (hiDpEvents expQ logQ n st ms c).1 = []) :
    (measStep expQ logQ n st ms oldT oldH c).2.2.1.filter
      (fun e => isDerivedKind e.kind) = [] := by
  simp only [measStep]
  split
  · simp [hn, isDerivedKind]
  · split
    · simp [hn, isDerivedKind]
    · split
      · simp [hn, isDerivedKind]
      · simp

/-- Claim C7 (confirmed): measurement diffing is joint, in a fixed order.
When the tick's temperature and humidity are both present and the unit of
measure is readable from the fetched state, the measurement-block events
are: `room_temp`, `room_humidity`, `room_dew_point`, `room_heat_index`
when both changed; `room_temp` then the derived pair when only
temperature changed; `room_humidity` then the derived pair when only
humidity changed; and a `batteryVoltage` change fires `battery_voltage`
independently of those branches. -/
theorem c7_measurement_order (expQ logQ : ℚ → ℚ) (ps : PodState)
    (st : AcState) (ms : Measurements) (u : String) (t h : ℚ)
    (hu : st.temperatureUnit = some u) (ht : ms.temperature = some t)
    (hh : ms.humidity = some h) :
    ((ms.temperature ≠ ps.oldMeas.temperature ∧
        ms.humidity ≠ ps.oldMeas.humidity) →
      ((tick expQ logQ ps st ms).2.filter
          (fun e => isMeasKind e.kind)).map Event.kind =
        [.roomTemp, .roomHumidity, .roomDewPoint, .roomHeatIndex]) ∧
    ((ms.temperature ≠ ps.oldMeas.temperature ∧
        ms.humidity = ps.oldMeas.humidity) →
      ((tick expQ logQ ps st ms).2.filter
          (fun e => isMeasKind e.kind)).map Event.kind =
        [.roomTemp, .roomDewPoint, .roomHeatIndex]) ∧
    ((ms.temperature = ps.oldMeas.temperature ∧
        ms.humidity ≠ ps.oldMeas.humidity) →
      ((tick expQ logQ ps st ms).2.filter
          (fun e => isMeasKind e.kind)).map Event.kind =
        [.roomHumidity, .roomDewPoint, .roomHeatIndex]) ∧
    ((tick expQ logQ ps st ms).2.filter
        (fun e => e.kind == EventKind.batteryVoltage) =
      if ms.batteryVoltage = ps.oldMeas.batteryVoltage then []
      else
        [⟨.batteryVoltage, ps.name ++ ".battery_voltage",
          optNum ms.batteryVoltage, .pod ps.name⟩]) := by
  have hdew : room_dew_point expQ logQ st ms ps.cache =
      .ok (dewCore expQ logQ (unitIsF u) t h,
        ⟨some (unitIsF u), some (!(unitIsF u))⟩) := by
    simp [room_dew_point, ht, hh, hu]
  have hheat : room_heat_index st ms
      ⟨some (unitIsF u), some (!(unitIsF u))⟩ =
      .ok (heatCore (unitIsC u) t h,
        ⟨some (!(unitIsC u)), some (unitIsC u)⟩) := by
    simp [room_heat_index, ht, hh, hu]
  have hhdp := hiDpEvents_eq_both ps.name hdew hheat
  have hmf : (tick expQ logQ ps st ms).2.filter
      (fun e => isMeasKind e.kind) =
      (measStep expQ logQ ps.name st ms ps.oldMeas.temperature
        ps.oldMeas.humidity ps.cache).2.2.1.filter
        (fun e => isMeasKind e.kind) := by
    simp [tick, List.filter_append,
      modeStep_filter isMeasKind rfl, swingStep_filter isMeasKind rfl,
      targetTempStep_filter isMeasKind rfl,
      fanLevelStep_filter isMeasKind rfl, powerStep_filter isMeasKind rfl,
      tempUnitStep_filter isMeasKind rfl,
      batteryStep_filter isMeasKind rfl]
  refine ⟨?_, ?_, ?_, ?_⟩
  · rintro ⟨hT, hH⟩
    rw [hmf]
    simp [measStep, hT, hH, hhdp, isMeasKind]
  · rintro ⟨hT, hH⟩
    rw [hmf]
    simp [measStep, hT, hH, hhdp, isMeasKind]
  · rintro ⟨hT, hH⟩
    rw [hmf]
    simp [measStep, hT, hH, hhdp, isMeasKind]
  · have hbf : (tick expQ logQ ps st ms).2.filter
        (fun e => e.kind == EventKind.batteryVoltage) =
        (batteryStep ps.name ps.oldMeas.batteryVoltage
          ms.batteryVoltage).2.filter
          (fun e => e.kind == EventKind.batteryVoltage) := by
      simp [tick, List.filter_append,
        modeStep_filter (fun k => k == EventKind.batteryVoltage) rfl,
        swingStep_filter (fun k => k == EventKind.batteryVoltage) rfl,
        targetTempStep_filter (fun k => k == EventKind.batteryVoltage) rfl,
        fanLevelStep_filter (fun k => k == EventKind.batteryVoltage) rfl,
        powerStep_filter (fun k => k == EventKind.batteryVoltage) rfl,
        tempUnitStep_filter (fun k => k == EventKind.batteryVoltage) rfl,
        measStep_filter (fun k => k == EventKind.batteryVoltage)
          (fun k hk => isMeasKind_beq_false hk rfl)]
    rw [hbf]
    by_cases hb : ms.batteryVoltage = ps.oldMeas.batteryVoltage
    · simp [batteryStep, hb]
    · simp [batteryStep, hb]

theorem c7_witness :
    ((tick (fun q => q) (fun q => q) podFix podFix.oldState
        ⟨some 21, some 55, some 3⟩).2.filter
        (fun e => isMeasKind e.kind)).map Event.kind =
      [.roomTemp, .roomHumidity, .roomDewPoint, .roomHeatIndex] :=
  ((c7_measurement_order (fun q => q) (fun q => q) podFix podFix.oldState
      ⟨some 21, some 55, some 3⟩ "C" 21 55 rfl rfl rfl).1)
    ⟨by decide, by decide⟩

/-- Claim C9 (counterexample): the dew-point computation also fails when
the temperature measurement is absent, even though the unit of measure is
perfectly determinable (`temperatureUnit = "C"` in the fetched state), so
"fails if and only if the unit cannot be determined and no unit was
cached" is too strong. -/
theorem c9_counterexample :
    room_dew_point (fun q => q) (fun q => q)
        ⟨none, none, none, none, none, some "C"⟩ ⟨none, some 50, none⟩
        ⟨none, none⟩ = .error () ∧
    (⟨none, none, none, none, none, some "C"⟩ : AcState).temperatureUnit =
      some "C" := ⟨rfl, rfl⟩

/-- Claim C9 (corrected): with the temperature and humidity measurements
present, the dew-point computation fails if and only if the unit of
measure cannot be read from the fetched state and no Fahrenheit flag was
previously cached; with a cached flag it succeeds using the cached unit
(and leaves the cache untouched); and when it fails the tick fires no
`room_dew_point` or `room_heat_index` event. -/
theorem c9_amended (expQ logQ : ℚ → ℚ) (ps : PodState) (st : AcState)
    (ms : Measurements) (t h : ℚ) (ht : ms.temperature = some t)
    (hh : ms.humidity = some h) :
    ((room_dew_point expQ logQ st ms ps.cache = .error ()) ↔
      (st.temperatureUnit = none ∧ ps.cache.fnht = none)) ∧
    (∀ f : Bool, st.temperatureUnit = none → ps.cache.fnht = some f →
      room_dew_point expQ logQ st ms ps.cache =
        .ok (dewCore expQ logQ f t h, ps.cache)) ∧
    (st.temperatureUnit = none → ps.cache.fnht = none →
      (tick expQ logQ ps st ms).2.filter
        (fun e => isDerivedKind e.kind) = []) := by
  refine ⟨?_, ?_, ?_⟩
  · rcases hu : st.temperatureUnit with _ | u
    · rcases hc : ps.cache.fnht with _ | f
      · simp [room_dew_point, ht, hh, hu, hc]
      · simp [room_dew_point, ht, hh, hu, hc]
    · simp [room_dew_point, ht, hh, hu]
  · intro f h1 h2
    simp [room_dew_point, ht, hh, h1, h2]
  · intro h1 h2
    have herr : room_dew_point expQ logQ st ms ps.cache = .error () := by
      simp [room_dew_point, ht, hh, h1, h2]
    have hnil : (hiDpEvents expQ logQ ps.name st ms ps.cache).1 = [] := by
      rw [hiDpEvents_eq_err ps.name herr]
    simp [tick, List.filter_append,
      modeStep_filter isDerivedKind rfl,
      swingStep_filter isDerivedKind rfl,
      targetTempStep_filter isDerivedKind rfl,
      fanLevelStep_filter isDerivedKind rfl,
      powerStep_filter isDerivedKind rfl,
      tempUnitStep_filter isDerivedKind rfl,
      batteryStep_filter isDerivedKind rfl,
      measStep_filter_derived expQ logQ ps.name st ms _ _ _ hnil]

theorem c9_witness :
    room_dew_point (fun q => q) (fun q => q) stNoneFix
        ⟨some 25, some 60, none⟩ psCached.cache =
      .ok (dewCore (fun q => q) (fun q => q) true 25 60, psCached.cache) :=
  ((c9_amended (fun q => q) (fun q => q) psCached stNoneFix
      ⟨some 25, some 60, none⟩ 25 60 rfl rfl).2.1) true rfl rfl

/-- Claim C8 (confirmed): the heat-index computation evaluates the simple
average formula on the Fahrenheit temperature and replaces the result
with the Rothfusz regression exactly when the simple result is at least
80; at T = 68 °F, H = 50 % the returned value is the simple-formula
result (which is below 80), and at T = 95 °F, H = 80 % it is the
Rothfusz result (the simple value being at least 80), and the two
formulas genuinely disagree there. -/
theorem c8_heat_index :
    (∀ t h : ℚ, 80 ≤ simpleHeatIndex t h →
      heatCore false t h = rothfusz t h) ∧
    (∀ t h : ℚ, simpleHeatIndex t h < 80 →
      heatCore false t h = simpleHeatIndex t h) ∧
    simpleHeatIndex 68 50 < 80 ∧
    room_heat_index ⟨none, none, none, none, none, some "F"⟩
        ⟨some 68, some 50, none⟩ ⟨none, none⟩ =
      .ok (simpleHeatIndex 68 50, ⟨some true, some false⟩) ∧
    80 ≤ simpleHeatIndex 95 80 ∧
    room_heat_index ⟨none, none, none, none, none, some "F"⟩
        ⟨some 95, some 80, none⟩ ⟨none, none⟩ =
      .ok (rothfusz 95 80, ⟨some true, some false⟩) ∧
    rothfusz 95 80 ≠ simpleHeatIndex 95 80 := by
  have hF : unitIsC "F" = false := rfl
  have h68 : ¬ (80 : ℚ) ≤ simpleHeatIndex 68 50 := by
    norm_num [simpleHeatIndex]
  have h95 : (80 : ℚ) ≤ simpleHeatIndex 95 80 := by
    norm_num [simpleHeatIndex]
  refine ⟨?_, ?_, ?_, ?_, h95, ?_, ?_⟩
  · intro t h hge
    simp [heatCore, hge]
  · intro t h hlt
    simp [heatCore, not_le.mpr hlt]
  · norm_num [simpleHeatIndex]
  · simp [room_heat_index, hF, heatCore, h68]
  · simp [room_heat_index, hF, heatCore, h95]
  · norm_num [rothfusz, simpleHeatIndex]

theorem c8_witness :
    heatCore false 95 80 = rothfusz 95 80 ∧
    heatCore false 68 50 = simpleHeatIndex 68 50 :=
  ⟨c8_heat_index.1 95 80 (by norm_num [simpleHeatIndex]),
    c8_heat_index.2.1 68 50 (by norm_num [simpleHeatIndex])⟩

end Sensibo
